import Mathlib

/-!
Shallow embedding of the thought-record engine of the gamethinking MCP
server (src/index.js, class GameThinkingServer).

Modelling choices:
* JavaScript runtime values that can appear in a JSON-like tool payload are
  modelled by the inductive type `JSVal` (undefined, null, boolean, number,
  string, array, object).  JS numbers are modelled as `Int`: no claim
  depends on fractional values or NaN.
* A JS object is a finite key/value list; property access on a missing key
  yields `undefined`, property access on `null`/`undefined` throws a
  TypeError (modelled as an `Except.error`; the quotes JS puts around the
  property name in the TypeError text are omitted).  Property access on a
  primitive yields `undefined`.
* Thrown JS exceptions are modelled with `Except String`; the try/catch of
  `processGameThought` is the outer `match`.
* `JSON.stringify(o, null, 2)` output is modelled structurally as the
  ordered key/value list `o` itself (the serializer is injective on these
  payloads, so nothing is lost for the properties proved here).
* The `branches` record is an insertion-ordered association list of the
  object's OWN keys; updating an existing key keeps its position, a new
  key is appended, which is JS property insertion order.  (JS enumerates
  integer-like keys first; no property proved here depends on key
  enumeration order.)  The read `this.branches[id]` falls back to the
  prototype chain: for an identifier naming an Object.prototype member
  ("constructor", "toString", ...), whose inherited value is truthy and
  not an array, the guard `!this.branches[id]` skips initialization and
  the subsequent `.push` throws a TypeError — after the history push has
  already happened — which the catch converts to the error response.
* The `console.error(formatGameThought ...)` side channel is a
  fire-and-forget diagnostic write that cannot affect the returned value
  or the tracker state, and is not modelled.
-/

inductive JSVal where
  | undefined : JSVal
  | null : JSVal
  | bool : Bool → JSVal
  | num : Int → JSVal
  | str : String → JSVal
  | arr : List JSVal → JSVal
  | obj : List (String × JSVal) → JSVal

/-- JS truthiness: `undefined`, `null`, `false`, `0` and `""` are falsy;
every other value (any object or array included) is truthy. -/
def jsTruthy : JSVal → Bool
  | .undefined => false
  | .null => false
  | .bool b => b
  | .num n => n != 0
  | .str s => s != ""
  | .arr _ => true
  | .obj _ => true

/-- `typeof v === "string"`. -/
def JSVal.isStr : JSVal → Bool
  | .str _ => true
  | _ => false

/-- `typeof v === "number"`. -/
def JSVal.isNum : JSVal → Bool
  | .num _ => true
  | _ => false

/-- `typeof v === "boolean"`. -/
def JSVal.isBool : JSVal → Bool
  | .bool _ => true
  | _ => false

/-- Underlying string of a value known to be a string. -/
def JSVal.asStr : JSVal → String
  | .str s => s
  | _ => ""

/-- Underlying number of a value known to be a number. -/
def JSVal.asNum : JSVal → Int
  | .num n => n
  | _ => 0

/-- Underlying boolean of a value known to be a boolean. -/
def JSVal.asBool : JSVal → Bool
  | .bool b => b
  | _ => false

/-- First-match association-list lookup (JS object keys are unique, so
first match is the only match). -/
def assocLookup {α : Type} : List (String × α) → String → Option α
  | [], _ => none
  | (k, v) :: rest, key => if key = k then some v else assocLookup rest key

/-- Property read `data[k]` on a value that is not `null`/`undefined`:
a missing key on an object, or any key on a primitive, yields `undefined`. -/
def readProp (input : JSVal) (k : String) : JSVal :=
  match input with
  | .obj fs => (assocLookup fs k).getD .undefined
  | _ => .undefined

mutual

/-- JS ToString, used when a value is taken as a property key
(`this.branches[validatedInput.branchId]`). -/
def jsToKeyString : JSVal → String
  | .undefined => "undefined"
  | .null => "null"
  | .bool b => if b then "true" else "false"
  | .num n => toString n
  | .str s => s
  | .obj _ => "[object Object]"
  | .arr es => jsArrJoin es

def jsArrJoin : List JSVal → String
  | [] => ""
  | [.undefined] => ""
  | [.null] => ""
  | [e] => jsToKeyString e
  | .undefined :: rest => "," ++ jsArrJoin rest
  | .null :: rest => "," ++ jsArrJoin rest
  | e :: rest => jsToKeyString e ++ "," ++ jsArrJoin rest

end

/-- The validated record (interface GameThoughtData).  The four required
fields are typed; the optional fields are passed through untouched and
unvalidated, so they keep type `JSVal`. -/
structure GameThoughtData where
  thought : String
  thoughtNumber : Int
  totalThoughts : Int
  nextThoughtNeeded : Bool
  isRevision : JSVal
  revisesThought : JSVal
  branchFromThought : JSVal
  branchId : JSVal
  needsMoreThoughts : JSVal

/-- `validateGameThoughtData` (src/index.js lines 28-55).  Each required
field is checked in order; `!data.f` is JS truthiness, `typeof` checks are
the `is*` predicates.  Reading a property of `null`/`undefined` input
throws a TypeError at the first read, caught by the caller like any other
error. -/
def validateGameThoughtData (input : JSVal) : Except String GameThoughtData :=
  match input with
  | .undefined => .error "TypeError: Cannot read properties of undefined (reading thought)"
  | .null => .error "TypeError: Cannot read properties of null (reading thought)"
  | _ =>
    let thought := readProp input "thought"
    if !jsTruthy thought || !thought.isStr then
      .error "Invalid thought: must be a string"
    else
      let thoughtNumber := readProp input "thoughtNumber"
      if !jsTruthy thoughtNumber || !thoughtNumber.isNum then
        .error "Invalid thoughtNumber: must be a number"
      else
        let totalThoughts := readProp input "totalThoughts"
        if !jsTruthy totalThoughts || !totalThoughts.isNum then
          .error "Invalid totalThoughts: must be a number"
        else
          let nextThoughtNeeded := readProp input "nextThoughtNeeded"
          if !nextThoughtNeeded.isBool then
            .error "Invalid nextThoughtNeeded: must be a boolean"
          else
            .ok {
              thought := thought.asStr
              thoughtNumber := thoughtNumber.asNum
              totalThoughts := totalThoughts.asNum
              nextThoughtNeeded := nextThoughtNeeded.asBool
              isRevision := readProp input "isRevision"
              revisesThought := readProp input "revisesThought"
              branchFromThought := readProp input "branchFromThought"
              branchId := readProp input "branchId"
              needsMoreThoughts := readProp input "needsMoreThoughts" }

/-- In-place bump of `totalThoughts` (src/index.js lines 89-91). -/
def normalizeRecord (v : GameThoughtData) : GameThoughtData :=
  if v.thoughtNumber > v.totalThoughts then
    { v with totalThoughts := v.thoughtNumber }
  else v

/-- The two fields of `GameThinkingServer`: `thoughtHistory` and
`branches`. -/
structure ServerState where
  thoughtHistory : List GameThoughtData
  branches : List (String × List GameThoughtData)

def initialState : ServerState := { thoughtHistory := [], branches := [] }

/-- `if (!this.branches[id]) this.branches[id] = []; this.branches[id].push(v)`:
append to an existing key in place, or add the new key at the end. -/
def pushBranch (bs : List (String × List GameThoughtData)) (key : String)
    (v : GameThoughtData) : List (String × List GameThoughtData) :=
  match bs with
  | [] => [(key, [v])]
  | (k, l) :: rest =>
      if k = key then (k, l ++ [v]) :: rest
      else (k, l) :: pushBranch rest key v

/-- One `{ type: "text", text: ... }` entry of the response content array;
`text` is the stringified JSON object, kept structural. -/
structure ContentItem where
  type : String
  text : List (String × JSVal)

/-- Return type of `processGameThought`: `isError` is absent (`none`) on
success and `some true` on failure. -/
structure Response where
  content : List ContentItem
  isError : Option Bool

/-- The success payload (src/index.js lines 108-114), in the key order
JSON.stringify emits. -/
def successPayload (v : GameThoughtData) (st : ServerState) :
    List (String × JSVal) :=
  [("thoughtNumber", .num v.thoughtNumber),
   ("totalThoughts", .num v.totalThoughts),
   ("nextThoughtNeeded", .bool v.nextThoughtNeeded),
   ("branches", .arr (st.branches.map (fun p => .str p.1))),
   ("thoughtHistoryLength", .num st.thoughtHistory.length)]

/-- The failure payload (src/index.js lines 121-124). -/
def errorPayload (msg : String) : List (String × JSVal) :=
  [("error", .str msg), ("status", .str "failed")]

/-- The Object.prototype member names inherited by the plain object
literal `this.branches = {}`.  Every inherited value — a built-in function
or, for the `__proto__` accessor, the prototype object itself — is truthy
and is not an array, so it has no `.push` method. -/
def objectProtoKeys : List String :=
  ["constructor", "hasOwnProperty", "isPrototypeOf", "propertyIsEnumerable",
   "toLocaleString", "toString", "valueOf", "__proto__",
   "__defineGetter__", "__defineSetter__", "__lookupGetter__",
   "__lookupSetter__"]

/-- Message of the TypeError thrown by
`this.branches[validatedInput.branchId].push(...)` when the property read
resolves to an inherited non-array (only its distinctness from the four
validation messages matters here). -/
def branchPushTypeError : String :=
  "TypeError: this.branches[validatedInput.branchId].push is not a function"

/-- The branch update of a validated record throws: both branch fields are
truthy, there is no own key for the converted identifier, and the
identifier names an Object.prototype member — so `!this.branches[id]` sees
the inherited truthy value, skips initialization, and `.push` throws. -/
def protoCollision (bs : List (String × List GameThoughtData))
    (v : GameThoughtData) : Bool :=
  jsTruthy v.branchFromThought && jsTruthy v.branchId &&
    ((assocLookup bs (jsToKeyString v.branchId)).isNone &&
     objectProtoKeys.contains (jsToKeyString v.branchId))

/-- Whether a call on state `s` passes validation but then throws the
branch-update TypeError (the second caught throw path). -/
def branchPushThrows (s : ServerState) (input : JSVal) : Bool :=
  match validateGameThoughtData input with
  | .error _ => false
  | .ok v0 => protoCollision s.branches (normalizeRecord v0)

/-- `processGameThought` (src/index.js lines 85-129), as a state
transformer: the try body validates, normalizes in place, pushes to
history, then — if both branch fields are truthy — updates the branch
keyed by the string conversion of `branchId`: an own key's array (truthy)
is pushed onto in place; an absent key whose read falls through to a
truthy Object.prototype member skips initialization and the `.push`
throws, which the catch converts to the error response with the history
push already done; an absent, non-inherited key (read `undefined`, falsy)
is initialized to `[]` and pushed.  The success response is built from the
updated state; the catch turns any thrown message into the error
response.  The source nests the inherited-key test inside the truthiness
guard; `protoCollision` is exactly that nested test with the guard folded
in, and on the non-throwing path the same guard decides whether the push
happens — extensionally the source's control flow. -/
def processGameThought (s : ServerState) (input : JSVal) :
    ServerState × Response :=
  match validateGameThoughtData input with
  | .error msg =>
      (s, { content := [{ type := "text", text := errorPayload msg }],
            isError := some true })
  | .ok v0 =>
      let v := normalizeRecord v0
      let s1 : ServerState :=
        { thoughtHistory := s.thoughtHistory ++ [v], branches := s.branches }
      if protoCollision s.branches v then
        (s1, { content := [{ type := "text",
                             text := errorPayload branchPushTypeError }],
               isError := some true })
      else
        let s2 : ServerState :=
          { thoughtHistory := s1.thoughtHistory,
            branches :=
              if jsTruthy v.branchFromThought && jsTruthy v.branchId then
                pushBranch s1.branches (jsToKeyString v.branchId) v
              else s1.branches }
        (s2, { content := [{ type := "text", text := successPayload v s2 }],
               isError := none })

/-- Tracker state after a sequence of calls starting from `s`. -/
def runFrom (s : ServerState) (inputs : List JSVal) : ServerState :=
  inputs.foldl (fun acc i => (processGameThought acc i).1) s

/-- Tracker state after a sequence of calls on a fresh server. -/
def runCalls (inputs : List JSVal) : ServerState :=
  runFrom initialState inputs

/-- Whether a raw input passes validation (state-independent). -/
def validationOk (input : JSVal) : Bool :=
  match validateGameThoughtData input with
  | .ok _ => true
  | .error _ => false

/-- Number of calls in a sequence that pass validation.  Each of them
appends exactly one record to the history — also when the branch update
throws afterwards, since the history push precedes it. -/
def countValidated (inputs : List JSVal) : Nat :=
  (inputs.filter validationOk).length

/-- The payload of the (single) content item of a response. -/
def responsePayload (r : Response) : List (String × JSVal) :=
  match r.content with
  | c :: _ => c.text
  | [] => []

/-- The ordered record sequence of branch `id` (empty when the key is
absent). -/
def branchSeq (s : ServerState) (id : String) : List GameThoughtData :=
  (assocLookup s.branches id).getD []

/-! ### Step lemmas -/

theorem processGameThought_error_eq (s : ServerState) (input : JSVal)
    (msg : String) (h : validateGameThoughtData input = .error msg) :
    processGameThought s input =
      (s, { content := [{ type := "text", text := errorPayload msg }],
            isError := some true }) := by
  simp [processGameThought, h]

theorem processGameThought_ok_collision (s : ServerState) (input : JSVal)
    (v0 : GameThoughtData) (h : validateGameThoughtData input = .ok v0)
    (hc : protoCollision s.branches (normalizeRecord v0) = true) :
    processGameThought s input =
      ({ thoughtHistory := s.thoughtHistory ++ [normalizeRecord v0],
         branches := s.branches },
       { content := [{ type := "text",
                       text := errorPayload branchPushTypeError }],
         isError := some true }) := by
  simp [processGameThought, h, hc]

theorem processGameThought_ok_success_state (s : ServerState) (input : JSVal)
    (v0 : GameThoughtData) (h : validateGameThoughtData input = .ok v0)
    (hc : protoCollision s.branches (normalizeRecord v0) = false) :
    (processGameThought s input).1 =
      { thoughtHistory := s.thoughtHistory ++ [normalizeRecord v0],
        branches :=
          if jsTruthy (normalizeRecord v0).branchFromThought &&
             jsTruthy (normalizeRecord v0).branchId then
            pushBranch s.branches (jsToKeyString (normalizeRecord v0).branchId)
              (normalizeRecord v0)
          else s.branches } := by
  simp [processGameThought, h, hc]

theorem processGameThought_ok_success_response (s : ServerState)
    (input : JSVal) (v0 : GameThoughtData)
    (h : validateGameThoughtData input = .ok v0)
    (hc : protoCollision s.branches (normalizeRecord v0) = false) :
    (processGameThought s input).2 =
      { content := [⟨"text",
                     successPayload (normalizeRecord v0)
                       (processGameThought s input).1⟩],
        isError := none } := by
  simp [processGameThought, h, hc]

theorem processGameThought_ok_history (s : ServerState) (input : JSVal)
    (v0 : GameThoughtData) (h : validateGameThoughtData input = .ok v0) :
    (processGameThought s input).1.thoughtHistory =
      s.thoughtHistory ++ [normalizeRecord v0] := by
  cases hc : protoCollision s.branches (normalizeRecord v0) with
  | false => rw [processGameThought_ok_success_state s input v0 h hc]
  | true => rw [processGameThought_ok_collision s input v0 h hc]

theorem processGameThought_ok_branches (s : ServerState) (input : JSVal)
    (v0 : GameThoughtData) (h : validateGameThoughtData input = .ok v0) :
    (processGameThought s input).1.branches = s.branches ∨
    (processGameThought s input).1.branches =
      pushBranch s.branches (jsToKeyString (normalizeRecord v0).branchId)
        (normalizeRecord v0) := by
  cases hc : protoCollision s.branches (normalizeRecord v0) with
  | true =>
      left
      rw [processGameThought_ok_collision s input v0 h hc]
  | false =>
      rw [processGameThought_ok_success_state s input v0 h hc]
      by_cases hb : (jsTruthy (normalizeRecord v0).branchFromThought &&
          jsTruthy (normalizeRecord v0).branchId) = true
      · right; simp [hb]
      · left; simp [hb]

theorem processGameThought_ok_success_isError (s : ServerState)
    (input : JSVal) (v0 : GameThoughtData)
    (h : validateGameThoughtData input = .ok v0)
    (hc : protoCollision s.branches (normalizeRecord v0) = false) :
    (processGameThought s input).2.isError = none := by
  rw [processGameThought_ok_success_response s input v0 h hc]

theorem protoCollision_false_of_isError_none (s : ServerState)
    (input : JSVal) (v0 : GameThoughtData)
    (h : validateGameThoughtData input = .ok v0)
    (hn : (processGameThought s input).2.isError = none) :
    protoCollision s.branches (normalizeRecord v0) = false := by
  cases hc : protoCollision s.branches (normalizeRecord v0) with
  | false => rfl
  | true =>
      rw [processGameThought_ok_collision s input v0 h hc] at hn
      cases hn

theorem normalizeRecord_thoughtNumber (v : GameThoughtData) :
    (normalizeRecord v).thoughtNumber = v.thoughtNumber := by
  unfold normalizeRecord; split <;> rfl

theorem normalizeRecord_totalThoughts (v : GameThoughtData) :
    (normalizeRecord v).totalThoughts =
      if v.thoughtNumber > v.totalThoughts then v.thoughtNumber
      else v.totalThoughts := by
  unfold normalizeRecord; split <;> rfl

theorem normalizeRecord_le (v : GameThoughtData) :
    (normalizeRecord v).thoughtNumber ≤ (normalizeRecord v).totalThoughts := by
  unfold normalizeRecord
  split
  · exact le_refl _
  · omega

theorem validationOk_error (input : JSVal) (msg : String)
    (h : validateGameThoughtData input = .error msg) :
    validationOk input = false := by
  simp [validationOk, h]

theorem validationOk_ok (input : JSVal) (v0 : GameThoughtData)
    (h : validateGameThoughtData input = .ok v0) :
    validationOk input = true := by
  simp [validationOk, h]

theorem step_history_length (s : ServerState) (input : JSVal) :
    (processGameThought s input).1.thoughtHistory.length =
      s.thoughtHistory.length + (if validationOk input then 1 else 0) := by
  cases hv : validateGameThoughtData input with
  | error msg => simp [processGameThought_error_eq s input msg hv,
      validationOk_error input msg hv]
  | ok v0 => simp [processGameThought_ok_history s input v0 hv,
      validationOk_ok input v0 hv]

theorem countValidated_cons (i : JSVal) (is : List JSVal) :
    countValidated (i :: is) =
      (if validationOk i then 1 else 0) + countValidated is := by
  simp [countValidated, List.filter]
  cases validationOk i <;> simp [Nat.add_comm]

theorem runFrom_cons (s : ServerState) (i : JSVal) (is : List JSVal) :
    runFrom s (i :: is) = runFrom (processGameThought s i).1 is := rfl

theorem runFrom_history_length (inputs : List JSVal) :
    ∀ s : ServerState, (runFrom s inputs).thoughtHistory.length =
      s.thoughtHistory.length + countValidated inputs := by
  induction inputs with
  | nil => intro s; simp [runFrom, countValidated]
  | cons i is ih =>
      intro s
      rw [runFrom_cons, ih, step_history_length, countValidated_cons]
      omega

theorem runFrom_preserves (P : ServerState → Prop)
    (hstep : ∀ s input, P s → P (processGameThought s input).1) :
    ∀ (inputs : List JSVal) (s : ServerState), P s → P (runFrom s inputs) := by
  intro inputs
  induction inputs with
  | nil => intro s h; exact h
  | cons i is ih => intro s h; exact ih _ (hstep s i h)

theorem assocLookup_pushBranch (bs : List (String × List GameThoughtData))
    (key : String) (v : GameThoughtData) (id : String) :
    assocLookup (pushBranch bs key v) id =
      if id = key then some ((assocLookup bs key).getD [] ++ [v])
      else assocLookup bs id := by
  induction bs with
  | nil => simp [pushBranch, assocLookup]
  | cons p rest ih =>
      obtain ⟨k, l⟩ := p
      by_cases hk : k = key
      · subst hk
        by_cases hid : id = k <;>
          simp [pushBranch, assocLookup, hid]
      · by_cases hid : id = k
        · subst hid
          have hidkey : ¬ id = key := fun h => hk (h ▸ rfl)
          simp [pushBranch, hk, assocLookup, hidkey]
        · have hkkey : ¬ key = k := fun h => hk h.symm
          simp [pushBranch, hk, assocLookup, hid, hkkey, ih]

/-! ### Validation checks, named and ordered

The four required-field checks of `validateGameThoughtData`, restated one
by one over the raw key/value list of an object input, so that claims
about individual checks and about check order can be stated.
`validate_obj_eq` proves this restatement equal to the code. -/

/-- The raw value of key `k` of an object payload (`undefined` when the key
is absent). -/
def rawField (fs : List (String × JSVal)) (k : String) : JSVal :=
  (assocLookup fs k).getD .undefined

/-- Condition of check 1: `!data.thought || typeof data.thought !== "string"`. -/
def thoughtCheckFails (fs : List (String × JSVal)) : Bool :=
  !jsTruthy (rawField fs "thought") || !(rawField fs "thought").isStr

/-- Condition of check 2: `!data.thoughtNumber || typeof data.thoughtNumber !== "number"`. -/
def thoughtNumberCheckFails (fs : List (String × JSVal)) : Bool :=
  !jsTruthy (rawField fs "thoughtNumber") || !(rawField fs "thoughtNumber").isNum

/-- Condition of check 3: `!data.totalThoughts || typeof data.totalThoughts !== "number"`. -/
def totalThoughtsCheckFails (fs : List (String × JSVal)) : Bool :=
  !jsTruthy (rawField fs "totalThoughts") || !(rawField fs "totalThoughts").isNum

/-- Condition of check 4: `typeof data.nextThoughtNeeded !== "boolean"`. -/
def nextThoughtNeededCheckFails (fs : List (String × JSVal)) : Bool :=
  !(rawField fs "nextThoughtNeeded").isBool

/-- How many of the four checks fail on this payload. -/
def numFailingChecks (fs : List (String × JSVal)) : Nat :=
  (if thoughtCheckFails fs then 1 else 0) +
  (if thoughtNumberCheckFails fs then 1 else 0) +
  (if totalThoughtsCheckFails fs then 1 else 0) +
  (if nextThoughtNeededCheckFails fs then 1 else 0)

/-- The message of the first failing check in validation order, `none` when
all four pass. -/
def firstFailureMessage (fs : List (String × JSVal)) : Option String :=
  if thoughtCheckFails fs then some "Invalid thought: must be a string"
  else if thoughtNumberCheckFails fs then some "Invalid thoughtNumber: must be a number"
  else if totalThoughtsCheckFails fs then some "Invalid totalThoughts: must be a number"
  else if nextThoughtNeededCheckFails fs then some "Invalid nextThoughtNeeded: must be a boolean"
  else none

/-- The record built by a fully passing validation. -/
def validatedRecord (fs : List (String × JSVal)) : GameThoughtData where
  thought := (rawField fs "thought").asStr
  thoughtNumber := (rawField fs "thoughtNumber").asNum
  totalThoughts := (rawField fs "totalThoughts").asNum
  nextThoughtNeeded := (rawField fs "nextThoughtNeeded").asBool
  isRevision := rawField fs "isRevision"
  revisesThought := rawField fs "revisesThought"
  branchFromThought := rawField fs "branchFromThought"
  branchId := rawField fs "branchId"
  needsMoreThoughts := rawField fs "needsMoreThoughts"

/-- On an object input, `validateGameThoughtData` is exactly the ordered
cascade of the four named checks (definitional equality). -/
theorem validate_obj_eq (fs : List (String × JSVal)) :
    validateGameThoughtData (.obj fs) =
      if thoughtCheckFails fs then
        .error "Invalid thought: must be a string"
      else if thoughtNumberCheckFails fs then
        .error "Invalid thoughtNumber: must be a number"
      else if totalThoughtsCheckFails fs then
        .error "Invalid totalThoughts: must be a number"
      else if nextThoughtNeededCheckFails fs then
        .error "Invalid nextThoughtNeeded: must be a boolean"
      else .ok (validatedRecord fs) := rfl

/-! ### Concrete payloads used by witnesses and counterexamples -/

/-- Scenario A payload. -/
def fsA : List (String × JSVal) :=
  [("thought", .str "Add jump mechanic"), ("thoughtNumber", .num 1),
   ("totalThoughts", .num 3), ("nextThoughtNeeded", .bool true)]

def inputA : JSVal := .obj fsA

/-- Scenario B payload: `thoughtNumber` exceeds `totalThoughts`. -/
def fsB : List (String × JSVal) :=
  [("thought", .str "Tune gravity"), ("thoughtNumber", .num 5),
   ("totalThoughts", .num 3), ("nextThoughtNeeded", .bool true)]

def inputB : JSVal := .obj fsB

/-- Scenario C payload: a branching record. -/
def fsC : List (String × JSVal) :=
  [("thought", .str "Alt control scheme"), ("thoughtNumber", .num 2),
   ("totalThoughts", .num 5), ("nextThoughtNeeded", .bool true),
   ("branchFromThought", .num 1), ("branchId", .str "controls-alt")]

def inputC : JSVal := .obj fsC

/-- Scenario D payload: `thought` missing. -/
def fsD : List (String × JSVal) :=
  [("thoughtNumber", .num 1), ("totalThoughts", .num 1),
   ("nextThoughtNeeded", .bool true)]

def inputD : JSVal := .obj fsD

/-- Payload whose only missing required field is `thoughtNumber`, while
`thought` is the (well-typed but falsy) empty string. -/
def fsMissingTn : List (String × JSVal) :=
  [("thought", .str ""), ("totalThoughts", .num 1),
   ("nextThoughtNeeded", .bool true)]

def inputMissingTn : JSVal := .obj fsMissingTn

/-- Payload with a present, numeric, but zero (falsy) `thoughtNumber`. -/
def fsTnZero : List (String × JSVal) :=
  [("thought", .str "a"), ("thoughtNumber", .num 0),
   ("totalThoughts", .num 1), ("nextThoughtNeeded", .bool true)]

def inputTnZero : JSVal := .obj fsTnZero

/-- Scenario A payload extended with the optional tag `needsMoreThoughts`. -/
def fsTag : List (String × JSVal) :=
  [("thought", .str "Add jump mechanic"), ("thoughtNumber", .num 1),
   ("totalThoughts", .num 3), ("nextThoughtNeeded", .bool true),
   ("needsMoreThoughts", .bool true)]

def inputTag : JSVal := .obj fsTag

/-- Payload with `branchFromThought` present but falsy (`0`) and a branch
identifier. -/
def fsZeroBr : List (String × JSVal) :=
  [("thought", .str "x"), ("thoughtNumber", .num 1),
   ("totalThoughts", .num 1), ("nextThoughtNeeded", .bool true),
   ("branchFromThought", .num 0), ("branchId", .str "b")]

def inputZeroBr : JSVal := .obj fsZeroBr

/-- Valid payload with `thoughtNumber` exceeding `totalThoughts` whose
branch identifier "constructor" names an Object.prototype member. -/
def fsBCtor : List (String × JSVal) :=
  [("thought", .str "Tune gravity"), ("thoughtNumber", .num 5),
   ("totalThoughts", .num 3), ("nextThoughtNeeded", .bool true),
   ("branchFromThought", .num 1), ("branchId", .str "constructor")]

def inputBCtor : JSVal := .obj fsBCtor

/-- Valid payload whose branch identifier "constructor" names an
Object.prototype member. -/
def fsCtor : List (String × JSVal) :=
  [("thought", .str "x"), ("thoughtNumber", .num 1),
   ("totalThoughts", .num 1), ("nextThoughtNeeded", .bool true),
   ("branchFromThought", .num 1), ("branchId", .str "constructor")]

def inputCtor : JSVal := .obj fsCtor

/-! ### Response helpers -/

theorem responsePayload_ok (s : ServerState) (input : JSVal)
    (v0 : GameThoughtData) (h : validateGameThoughtData input = .ok v0)
    (hc : protoCollision s.branches (normalizeRecord v0) = false) :
    responsePayload (processGameThought s input).2 =
      successPayload (normalizeRecord v0) (processGameThought s input).1 := by
  rw [processGameThought_ok_success_response s input v0 h hc]
  rfl

theorem responsePayload_ok_collision (s : ServerState) (input : JSVal)
    (v0 : GameThoughtData) (h : validateGameThoughtData input = .ok v0)
    (hc : protoCollision s.branches (normalizeRecord v0) = true) :
    responsePayload (processGameThought s input).2 =
      errorPayload branchPushTypeError := by
  rw [processGameThought_ok_collision s input v0 h hc]
  rfl

theorem responsePayload_error (s : ServerState) (input : JSVal)
    (msg : String) (h : validateGameThoughtData input = .error msg) :
    responsePayload (processGameThought s input).2 = errorPayload msg := by
  rw [processGameThought_error_eq s input msg h]
  rfl

theorem successPayload_lookup_totalThoughts (v : GameThoughtData)
    (st : ServerState) :
    assocLookup (successPayload v st) "totalThoughts" =
      some (.num v.totalThoughts) := rfl

theorem successPayload_lookup_historyLength (v : GameThoughtData)
    (st : ServerState) :
    assocLookup (successPayload v st) "thoughtHistoryLength" =
      some (.num st.thoughtHistory.length) := rfl

theorem successPayload_lookup_needsMoreThoughts (v : GameThoughtData)
    (st : ServerState) :
    assocLookup (successPayload v st) "needsMoreThoughts" = none := rfl

/-! ### Claims -/

/-- C5: the first call on a fresh tracker with Scenario A's payload
(thought "Add jump mechanic", thoughtNumber 1, totalThoughts 3,
nextThoughtNeeded true) succeeds: `isError` is absent, and the payload
carries thoughtNumber 1, totalThoughts 3, nextThoughtNeeded true, an empty
branches list and thoughtHistoryLength 1. -/
theorem scenarioA_first_call :
    (processGameThought initialState inputA).2.isError = none ∧
    responsePayload (processGameThought initialState inputA).2 =
      [("thoughtNumber", .num 1), ("totalThoughts", .num 3),
       ("nextThoughtNeeded", .bool true), ("branches", .arr []),
       ("thoughtHistoryLength", .num 1)] := ⟨rfl, rfl⟩

/-- C6: for every tracker state and every input value of any shape, the
response of `processGameThought` is well formed: its content is exactly
one text item, `isError` is either absent or `true`, every validation
failure is converted into the failure shape with `isError` true, and
`isError` is true exactly on the two caught throw paths — validation
failure, or the branch-update TypeError on an Object.prototype-colliding
branch identifier — so no exception escapes the call and `isError` is the
sole failure signal. -/
theorem response_total_wellformed (s : ServerState) (input : JSVal) :
    (∃ item : ContentItem,
        (processGameThought s input).2.content = [item] ∧
        item.type = "text") ∧
    ((processGameThought s input).2.isError = none ∨
     (processGameThought s input).2.isError = some true) ∧
    (validationOk input = false →
     (processGameThought s input).2.isError = some true) ∧
    ((processGameThought s input).2.isError = some true ↔
     (validationOk input = false ∨ branchPushThrows s input = true)) := by
  cases hv : validateGameThoughtData input with
  | error msg =>
      rw [processGameThought_error_eq s input msg hv]
      refine ⟨⟨_, rfl, rfl⟩, Or.inr rfl, fun _ => rfl, ?_⟩
      simp [validationOk_error input msg hv]
  | ok v0 =>
      have hvOk : validationOk input = true := validationOk_ok input v0 hv
      cases hc : protoCollision s.branches (normalizeRecord v0) with
      | true =>
          rw [processGameThought_ok_collision s input v0 hv hc]
          refine ⟨⟨_, rfl, rfl⟩, Or.inr rfl, fun _ => rfl, ?_⟩
          simp [hvOk, branchPushThrows, hv, hc]
      | false =>
          have hiE := processGameThought_ok_success_isError s input v0 hv hc
          refine ⟨?_, Or.inl hiE, ?_, ?_⟩
          · rw [processGameThought_ok_success_response s input v0 hv hc]
            exact ⟨_, rfl, rfl⟩
          · intro hfalse
            rw [hvOk] at hfalse
            cases hfalse
          · rw [hiE]
            simp [hvOk, branchPushThrows, hv, hc]

/-- C1 counterexample: `inputBCtor` passes validation with thoughtNumber 5
over totalThoughts 3, the bumped record is appended to History, but the
branch identifier "constructor" collides with Object.prototype, the push
throws after the history push, and the call returns the error payload —
there is no success response and no `totalThoughts` key in the response at
all, refuting the claimed returned value for this validated input. -/
theorem totalThoughts_bump_response_counterexample :
    validationOk inputBCtor = true ∧
    (processGameThought initialState inputBCtor).1.thoughtHistory =
      [normalizeRecord (validatedRecord fsBCtor)] ∧
    (normalizeRecord (validatedRecord fsBCtor)).totalThoughts = 5 ∧
    (processGameThought initialState inputBCtor).2.isError = some true ∧
    assocLookup
      (responsePayload (processGameThought initialState inputBCtor).2)
      "totalThoughts" = none := ⟨rfl, rfl, rfl, rfl, rfl⟩

/-- C1 amended: for every input passing validation, the record appended to
the history carries `totalThoughts` bumped to `thoughtNumber` when
`thoughtNumber > totalThoughts` and the caller's value otherwise; whenever
the call returns a success response (the branch update did not throw on an
Object.prototype-colliding identifier), that response reports the same
value; and consequently every record in any reachable history satisfies
`thoughtNumber ≤ totalThoughts`. -/
theorem normalization_bumps_totalThoughts :
    (∀ (s : ServerState) (input : JSVal) (v0 : GameThoughtData),
        validateGameThoughtData input = .ok v0 →
        (processGameThought s input).1.thoughtHistory =
          s.thoughtHistory ++ [normalizeRecord v0] ∧
        (normalizeRecord v0).totalThoughts =
          (if v0.thoughtNumber > v0.totalThoughts then v0.thoughtNumber
           else v0.totalThoughts)) ∧
    (∀ (s : ServerState) (input : JSVal) (v0 : GameThoughtData),
        validateGameThoughtData input = .ok v0 →
        (processGameThought s input).2.isError = none →
        assocLookup (responsePayload (processGameThought s input).2)
            "totalThoughts" =
          some (.num (if v0.thoughtNumber > v0.totalThoughts
                      then v0.thoughtNumber else v0.totalThoughts))) ∧
    (∀ (inputs : List JSVal) (r : GameThoughtData),
        r ∈ (runCalls inputs).thoughtHistory →
        r.thoughtNumber ≤ r.totalThoughts) := by
  refine ⟨?_, ?_, ?_⟩
  · intro s input v0 h
    exact ⟨processGameThought_ok_history s input v0 h,
      normalizeRecord_totalThoughts v0⟩
  · intro s input v0 h hn
    have hc := protoCollision_false_of_isError_none s input v0 h hn
    rw [responsePayload_ok s input v0 h hc,
      successPayload_lookup_totalThoughts,
      normalizeRecord_totalThoughts]
  · intro inputs
    have := runFrom_preserves
      (fun st => ∀ r ∈ st.thoughtHistory,
        r.thoughtNumber ≤ r.totalThoughts)
      (by
        intro s input hP
        cases hv : validateGameThoughtData input with
        | error msg =>
            rw [processGameThought_error_eq s input msg hv]
            exact hP
        | ok v0 =>
            rw [processGameThought_ok_history s input v0 hv]
            intro r hr
            rcases List.mem_append.mp hr with hmem | hmem
            · exact hP r hmem
            · have := List.mem_singleton.mp hmem
              subst this
              exact normalizeRecord_le v0)
      inputs initialState (by intro r hr; cases hr)
    exact this

/-- Witness for C1 at Scenario B's payload: `thoughtNumber` 5 exceeds
`totalThoughts` 3, the call succeeds, and the returned `totalThoughts` is
5. -/
theorem normalization_bumps_totalThoughts_witness :
    assocLookup (responsePayload (processGameThought initialState inputB).2)
      "totalThoughts" = some (.num 5) := by
  have h := normalization_bumps_totalThoughts.2.1 initialState inputB
    (validatedRecord fsB) rfl rfl
  simpa using h

/-- C2 counterexample: `inputCtor` passes validation, so its record is
appended to History (length 1 after zero prior calls), yet the call
returns `isError` true because the branch push on "constructor" throws —
after zero successful calls the History length is 1, refuting
"length after N successful calls equals N" and the success-report clause
for this call. -/
theorem history_length_success_counterexample :
    validationOk inputCtor = true ∧
    (processGameThought initialState inputCtor).2.isError = some true ∧
    (runCalls [inputCtor]).thoughtHistory.length = 1 := ⟨rfl, rfl, rfl⟩

/-- C2 amended: the history is append-only: each single call either leaves
the state untouched (validation failure) or extends the history with
exactly one record at the end, leaving all earlier records in place; after
any call sequence the history length is the number of calls that passed
validation (a validated call whose branch update throws on an
Object.prototype-colliding identifier still appends its record before
returning `isError` true); and each call that returns a success response
reports `thoughtHistoryLength` equal to the number of validated calls so
far. -/
theorem history_append_only :
    (∀ inputs : List JSVal,
        (runCalls inputs).thoughtHistory.length = countValidated inputs) ∧
    (∀ (s : ServerState) (input : JSVal),
        (processGameThought s input).1 = s ∨
        ∃ v0, validateGameThoughtData input = .ok v0 ∧
          (processGameThought s input).1.thoughtHistory =
            s.thoughtHistory ++ [normalizeRecord v0]) ∧
    (∀ (inputs : List JSVal) (input : JSVal) (v0 : GameThoughtData),
        validateGameThoughtData input = .ok v0 →
        (processGameThought (runCalls inputs) input).2.isError = none →
        assocLookup
            (responsePayload (processGameThought (runCalls inputs) input).2)
            "thoughtHistoryLength" =
          some (.num (countValidated inputs + 1))) := by
  refine ⟨?_, ?_, ?_⟩
  · intro inputs
    have := runFrom_history_length inputs initialState
    simpa [runCalls, initialState] using this
  · intro s input
    cases hv : validateGameThoughtData input with
    | error msg =>
        exact Or.inl (by rw [processGameThought_error_eq s input msg hv])
    | ok v0 =>
        exact Or.inr ⟨v0, rfl,
          processGameThought_ok_history s input v0 hv⟩
  · intro inputs input v0 h hn
    have hc := protoCollision_false_of_isError_none _ input v0 h hn
    have hlen : (processGameThought (runCalls inputs) input).1.thoughtHistory.length
        = countValidated inputs + 1 := by
      rw [step_history_length]
      have := runFrom_history_length inputs initialState
      simp only [runCalls]
      rw [this]
      simp [initialState, validationOk_ok input v0 h]
    rw [responsePayload_ok _ input v0 h hc,
      successPayload_lookup_historyLength, hlen]
    simp

/-- Witness for C2 at Scenario A's payload on a fresh tracker: the first
call succeeds and reports `thoughtHistoryLength` 1. -/
theorem history_append_only_witness :
    assocLookup (responsePayload (processGameThought (runCalls []) inputA).2)
      "thoughtHistoryLength" = some (.num (countValidated [] + 1)) :=
  history_append_only.2.2 [] inputA (validatedRecord fsA) rfl rfl

/-! ### Check-level lemmas -/

theorem thoughtCheckFails_false_isStr (fs : List (String × JSVal))
    (h : thoughtCheckFails fs = false) :
    (rawField fs "thought").isStr = true := by
  unfold thoughtCheckFails at h
  rcases Bool.or_eq_false_iff.mp h with ⟨-, hb⟩
  simpa using hb

theorem thoughtNumberCheckFails_false_isNum (fs : List (String × JSVal))
    (h : thoughtNumberCheckFails fs = false) :
    (rawField fs "thoughtNumber").isNum = true := by
  unfold thoughtNumberCheckFails at h
  rcases Bool.or_eq_false_iff.mp h with ⟨-, hb⟩
  simpa using hb

theorem totalThoughtsCheckFails_false_isNum (fs : List (String × JSVal))
    (h : totalThoughtsCheckFails fs = false) :
    (rawField fs "totalThoughts").isNum = true := by
  unfold totalThoughtsCheckFails at h
  rcases Bool.or_eq_false_iff.mp h with ⟨-, hb⟩
  simpa using hb

theorem nextThoughtNeededCheckFails_false_isBool (fs : List (String × JSVal))
    (h : nextThoughtNeededCheckFails fs = false) :
    (rawField fs "nextThoughtNeeded").isBool = true := by
  unfold nextThoughtNeededCheckFails at h
  simpa using h

theorem thoughtNumberCheckFails_iff (fs : List (String × JSVal)) :
    thoughtNumberCheckFails fs = true ↔
      ((rawField fs "thoughtNumber").isNum = false ∨
       rawField fs "thoughtNumber" = .num 0) := by
  unfold thoughtNumberCheckFails
  cases h : rawField fs "thoughtNumber" <;>
    simp [jsTruthy, JSVal.isNum]

theorem validate_obj_error_of_first (fs : List (String × JSVal))
    (msg : String) (h : firstFailureMessage fs = some msg) :
    validateGameThoughtData (.obj fs) = .error msg := by
  rw [validate_obj_eq]
  unfold firstFailureMessage at h
  split_ifs at h ⊢ <;> simp_all

/-- C7: when two or more of the four required-field checks fail, the first
failing check in the fixed order thought, thoughtNumber, totalThoughts,
nextThoughtNeeded determines the one message that is thrown, and the error
payload carries exactly that single message. -/
theorem validation_first_violation_wins (fs : List (String × JSVal))
    (h2 : 2 ≤ numFailingChecks fs) :
    ∃ msg, firstFailureMessage fs = some msg ∧
      validateGameThoughtData (.obj fs) = .error msg ∧
      ∀ s : ServerState,
        responsePayload (processGameThought s (.obj fs)).2 =
          [("error", .str msg), ("status", .str "failed")] := by
  have hone : ∃ msg, firstFailureMessage fs = some msg := by
    unfold firstFailureMessage
    by_cases ha : thoughtCheckFails fs
    · exact ⟨"Invalid thought: must be a string", by simp [ha]⟩
    · by_cases hb : thoughtNumberCheckFails fs
      · exact ⟨"Invalid thoughtNumber: must be a number", by simp [ha, hb]⟩
      · by_cases hc : totalThoughtsCheckFails fs
        · exact ⟨"Invalid totalThoughts: must be a number",
            by simp [ha, hb, hc]⟩
        · by_cases hd : nextThoughtNeededCheckFails fs
          · exact ⟨"Invalid nextThoughtNeeded: must be a boolean",
              by simp [ha, hb, hc, hd]⟩
          · unfold numFailingChecks at h2
            simp [ha, hb, hc, hd] at h2
  obtain ⟨msg, hmsg⟩ := hone
  have hv := validate_obj_error_of_first fs msg hmsg
  exact ⟨msg, hmsg, hv, fun s => responsePayload_error s (.obj fs) msg hv⟩

/-- Witness for C7 at the empty object: all four checks fail, and the
thought message wins. -/
theorem validation_first_violation_wins_witness :
    2 ≤ numFailingChecks [] ∧
    (∃ msg, firstFailureMessage [] = some msg ∧
      validateGameThoughtData (.obj []) = .error msg ∧
      ∀ s : ServerState,
        responsePayload (processGameThought s (.obj [])).2 =
          [("error", .str msg), ("status", .str "failed")]) :=
  ⟨by decide, validation_first_violation_wins [] (by decide)⟩

/-- C8 counterexample: in `fsTnZero` the `thoughtNumber` field is present
and numeric (value 0) and the preceding thought check passes, yet
validation fails with the thoughtNumber message — refuting the claimed
"fails only if absent or non-numeric". -/
theorem thoughtNumber_zero_counterexample :
    (rawField fsTnZero "thoughtNumber").isNum = true ∧
    thoughtCheckFails fsTnZero = false ∧
    validateGameThoughtData inputTnZero =
      .error "Invalid thoughtNumber: must be a number" := ⟨rfl, rfl, rfl⟩

/-- C8 amended: validation fails with the thoughtNumber message iff the
thought check passes and `thoughtNumber` is absent, non-numeric, or the
JS-falsy number 0; every present, numeric, nonzero `thoughtNumber` passes
the check. -/
theorem thoughtNumber_check_iff (fs : List (String × JSVal)) :
    validateGameThoughtData (.obj fs) =
        .error "Invalid thoughtNumber: must be a number" ↔
      (thoughtCheckFails fs = false ∧
       ((rawField fs "thoughtNumber").isNum = false ∨
        rawField fs "thoughtNumber" = .num 0)) := by
  rw [validate_obj_eq, ← thoughtNumberCheckFails_iff]
  split_ifs with ha hb hc hd <;> simp_all

/-- The claim's notion of a bad required field: missing or ill-typed.
A missing field reads back as `undefined`, which is not of the required
type, so both cases collapse into one type test per field. -/
def requiredFieldViolated (fs : List (String × JSVal)) : Prop :=
  (rawField fs "thought").isStr = false ∨
  (rawField fs "thoughtNumber").isNum = false ∨
  (rawField fs "totalThoughts").isNum = false ∨
  (rawField fs "nextThoughtNeeded").isBool = false

/-- C4 counterexample: in `fsMissingTn` the only missing-or-ill-typed
required field is `thoughtNumber` (`thought` is a well-typed string,
merely empty, and the other fields are well typed), but validation reports
the thought message rather than the message of the violated field. -/
theorem error_message_field_counterexample :
    (rawField fsMissingTn "thought").isStr = true ∧
    rawField fsMissingTn "thoughtNumber" = .undefined ∧
    (rawField fsMissingTn "totalThoughts").isNum = true ∧
    (rawField fsMissingTn "nextThoughtNeeded").isBool = true ∧
    validateGameThoughtData inputMissingTn =
      .error "Invalid thought: must be a string" ∧
    "Invalid thought: must be a string" ≠
      "Invalid thoughtNumber: must be a number" :=
  ⟨rfl, rfl, rfl, rfl, rfl, by decide⟩

/-- C4 amended: for every object input with a missing or ill-typed
required field, the call fails with `isError` true, the `status:"failed"`
error payload carrying the message of the first failing check in
validation order (a check also fails on present JS-falsy values, such as
an empty `thought` or zero numbers), and the state is left completely
unchanged. -/
theorem error_shape_atomicity (fs : List (String × JSVal))
    (h : requiredFieldViolated fs) :
    ∃ msg, firstFailureMessage fs = some msg ∧
      ∀ s : ServerState,
        (processGameThought s (.obj fs)).1 = s ∧
        (processGameThought s (.obj fs)).2.isError = some true ∧
        responsePayload (processGameThought s (.obj fs)).2 =
          [("error", .str msg), ("status", .str "failed")] := by
  have hone : ∃ msg, firstFailureMessage fs = some msg := by
    unfold firstFailureMessage
    by_cases ha : thoughtCheckFails fs
    · exact ⟨"Invalid thought: must be a string", by simp [ha]⟩
    · by_cases hb : thoughtNumberCheckFails fs
      · exact ⟨"Invalid thoughtNumber: must be a number", by simp [ha, hb]⟩
      · by_cases hc : totalThoughtsCheckFails fs
        · exact ⟨"Invalid totalThoughts: must be a number",
            by simp [ha, hb, hc]⟩
        · by_cases hd : nextThoughtNeededCheckFails fs
          · exact ⟨"Invalid nextThoughtNeeded: must be a boolean",
              by simp [ha, hb, hc, hd]⟩
          · exfalso
            have h1 := thoughtCheckFails_false_isStr fs (by simpa using ha)
            have h2 := thoughtNumberCheckFails_false_isNum fs
              (by simpa using hb)
            have h3 := totalThoughtsCheckFails_false_isNum fs
              (by simpa using hc)
            have h4 := nextThoughtNeededCheckFails_false_isBool fs
              (by simpa using hd)
            rcases h with hv | hv | hv | hv <;> simp_all
  obtain ⟨msg, hmsg⟩ := hone
  have hv := validate_obj_error_of_first fs msg hmsg
  refine ⟨msg, hmsg, fun s => ⟨?_, ?_, ?_⟩⟩
  · rw [processGameThought_error_eq s (.obj fs) msg hv]
  · rw [processGameThought_error_eq s (.obj fs) msg hv]
  · exact responsePayload_error s (.obj fs) msg hv

/-- Witness for C4 at Scenario D's payload (missing `thought`): the call
fails with the thought message and does not change the state. -/
theorem error_shape_atomicity_witness :
    ∃ msg, firstFailureMessage fsD = some msg ∧
      ∀ s : ServerState,
        (processGameThought s (.obj fsD)).1 = s ∧
        (processGameThought s (.obj fsD)).2.isError = some true ∧
        responsePayload (processGameThought s (.obj fsD)).2 =
          [("error", .str msg), ("status", .str "failed")] :=
  error_shape_atomicity fsD (Or.inl rfl)

theorem normalizeRecord_needsMoreThoughts (v : GameThoughtData) :
    (normalizeRecord v).needsMoreThoughts = v.needsMoreThoughts := by
  unfold normalizeRecord; split <;> rfl

/-- C9 counterexample: a valid call carrying `needsMoreThoughts: true`
succeeds and stores the tag on the record, but the success payload does
not echo the tag — refuting the claimed echo. -/
theorem needsMoreThoughts_echo_counterexample :
    validateGameThoughtData inputTag = .ok (validatedRecord fsTag) ∧
    (validatedRecord fsTag).needsMoreThoughts = .bool true ∧
    (processGameThought initialState inputTag).2.isError = none ∧
    assocLookup (responsePayload (processGameThought initialState inputTag).2)
      "needsMoreThoughts" = none := ⟨rfl, rfl, rfl, rfl⟩

/-- C9 amended: for every valid object input, the optional tag
`needsMoreThoughts` is stored on the appended record exactly as supplied
(unvalidated and uninterpreted, unchanged by normalization), and it is not
included in the success response payload. -/
theorem needsMoreThoughts_stored_not_echoed (s : ServerState)
    (fs : List (String × JSVal)) (v0 : GameThoughtData)
    (h : validateGameThoughtData (.obj fs) = .ok v0) :
    v0.needsMoreThoughts = rawField fs "needsMoreThoughts" ∧
    (processGameThought s (.obj fs)).1.thoughtHistory =
      s.thoughtHistory ++ [normalizeRecord v0] ∧
    (normalizeRecord v0).needsMoreThoughts = rawField fs "needsMoreThoughts" ∧
    assocLookup (responsePayload (processGameThought s (.obj fs)).2)
      "needsMoreThoughts" = none := by
  have hrec : v0 = validatedRecord fs := by
    rw [validate_obj_eq] at h
    split_ifs at h
    simp_all
  refine ⟨?_, ?_, ?_, ?_⟩
  · rw [hrec]; rfl
  · exact processGameThought_ok_history s (.obj fs) v0 h
  · rw [normalizeRecord_needsMoreThoughts, hrec]; rfl
  · cases hc : protoCollision s.branches (normalizeRecord v0) with
    | true =>
        rw [responsePayload_ok_collision s (.obj fs) v0 h hc]
        rfl
    | false =>
        rw [responsePayload_ok s (.obj fs) v0 h hc,
          successPayload_lookup_needsMoreThoughts]

/-- Witness for C9 at Scenario A's payload extended with
`needsMoreThoughts: true`. -/
theorem needsMoreThoughts_stored_not_echoed_witness :
    (validatedRecord fsTag).needsMoreThoughts =
      rawField fsTag "needsMoreThoughts" ∧
    (processGameThought initialState (.obj fsTag)).1.thoughtHistory =
      initialState.thoughtHistory ++ [normalizeRecord (validatedRecord fsTag)] ∧
    (normalizeRecord (validatedRecord fsTag)).needsMoreThoughts =
      rawField fsTag "needsMoreThoughts" ∧
    assocLookup
      (responsePayload (processGameThought initialState (.obj fsTag)).2)
      "needsMoreThoughts" = none :=
  needsMoreThoughts_stored_not_echoed initialState fsTag
    (validatedRecord fsTag) rfl

/-! ### Branch lemmas -/

theorem branchSeq_ok_step (s : ServerState) (input : JSVal)
    (v0 : GameThoughtData) (id : String)
    (h : validateGameThoughtData input = .ok v0) :
    branchSeq (processGameThought s input).1 id =
      (if (jsTruthy (normalizeRecord v0).branchFromThought &&
           jsTruthy (normalizeRecord v0).branchId) = true ∧
          jsToKeyString (normalizeRecord v0).branchId = id ∧
          protoCollision s.branches (normalizeRecord v0) = false then
         branchSeq s id ++ [normalizeRecord v0]
       else branchSeq s id) := by
  cases hc : protoCollision s.branches (normalizeRecord v0) with
  | true =>
      rw [processGameThought_ok_collision s input v0 h hc]
      simp [branchSeq, hc]
  | false =>
      rw [processGameThought_ok_success_state s input v0 h hc]
      unfold branchSeq
      by_cases hcond : (jsTruthy (normalizeRecord v0).branchFromThought &&
          jsTruthy (normalizeRecord v0).branchId) = true
      · simp only [hcond, if_true]
        rw [assocLookup_pushBranch]
        by_cases hid : id = jsToKeyString (normalizeRecord v0).branchId
        · simp [hid, hcond, hc]
        · have hid2 : ¬ jsToKeyString (normalizeRecord v0).branchId = id :=
            fun hcc => hid hcc.symm
          simp [hid, hid2]
      · simp [hcond]

theorem append_singleton_ne_nil (l : List GameThoughtData)
    (v : GameThoughtData) : l ++ [v] ≠ [] := by
  intro hc
  have := congrArg List.length hc
  simp at this

theorem pushBranch_preserves_nonempty
    (bs : List (String × List GameThoughtData)) (key : String)
    (v : GameThoughtData) (h : ∀ p ∈ bs, p.2 ≠ []) :
    ∀ p ∈ pushBranch bs key v, p.2 ≠ [] := by
  induction bs with
  | nil =>
      intro p hp
      simp only [pushBranch, List.mem_singleton] at hp
      subst hp
      simp
  | cons q rest ih =>
      obtain ⟨k, l⟩ := q
      intro p hp
      unfold pushBranch at hp
      by_cases hk : k = key
      · rw [if_pos hk] at hp
        rcases List.mem_cons.mp hp with rfl | hp2
        · exact append_singleton_ne_nil l v
        · exact h p (List.mem_cons_of_mem _ hp2)
      · rw [if_neg hk] at hp
        rcases List.mem_cons.mp hp with rfl | hp2
        · exact h (k, l) (List.mem_cons_self _ _)
        · exact ih (fun q hq => h q (List.mem_cons_of_mem _ hq)) p hp2

/-- C3 counterexample: the record of `inputZeroBr` is submitted with
`branchFromThought` set (to the JS-falsy number 0) and `branchId` equal to
"b" and is present in the history, yet it is not a member of
BranchIndex["b"] — refuting the claimed iff for "set" read as "present". -/
theorem branch_membership_set_counterexample :
    ¬ (∀ r ∈ (runCalls [inputZeroBr]).thoughtHistory,
        (r ∈ branchSeq (runCalls [inputZeroBr]) "b" ↔
         (r.branchFromThought ≠ JSVal.undefined ∧
          r.branchId = JSVal.str "b"))) := by
  intro hclaim
  have hhist : (runCalls [inputZeroBr]).thoughtHistory =
      [validatedRecord fsZeroBr] := rfl
  have hmem : validatedRecord fsZeroBr ∈
      (runCalls [inputZeroBr]).thoughtHistory := by
    rw [hhist]; exact List.mem_singleton_self _
  have hiff := hclaim _ hmem
  have hset : (validatedRecord fsZeroBr).branchFromThought ≠
      JSVal.undefined := by
    intro hc
    exact JSVal.noConfusion hc
  have hin := hiff.mpr ⟨hset, rfl⟩
  have hbs : branchSeq (runCalls [inputZeroBr]) "b" = [] := rfl
  rw [hbs] at hin
  exact List.not_mem_nil _ hin

/-- C3 amended: a validated call appends its record to BranchIndex[id]
precisely when `branchFromThought` is truthy, `branchId` is truthy with
string conversion `id`, and the update does not collide with an
Object.prototype-inherited key (on a collision the `.push` throws, the
record joins no branch, and the call returns the error response though the
record stays in History); all other branch sequences are untouched; a call
failing validation changes nothing; and every record in any branch
sequence of a reachable state is also present in the history. -/
theorem branch_membership_truthy :
    (∀ (s : ServerState) (input : JSVal) (v0 : GameThoughtData) (id : String),
        validateGameThoughtData input = .ok v0 →
        branchSeq (processGameThought s input).1 id =
          (if (jsTruthy (normalizeRecord v0).branchFromThought &&
               jsTruthy (normalizeRecord v0).branchId) = true ∧
              jsToKeyString (normalizeRecord v0).branchId = id ∧
              protoCollision s.branches (normalizeRecord v0) = false then
             branchSeq s id ++ [normalizeRecord v0]
           else branchSeq s id)) ∧
    (∀ (s : ServerState) (input : JSVal) (msg : String),
        validateGameThoughtData input = .error msg →
        (processGameThought s input).1 = s) ∧
    (∀ (inputs : List JSVal) (id : String) (r : GameThoughtData),
        r ∈ branchSeq (runCalls inputs) id →
        r ∈ (runCalls inputs).thoughtHistory) := by
  refine ⟨fun s input v0 id h => branchSeq_ok_step s input v0 id h,
    fun s input msg h => by rw [processGameThought_error_eq s input msg h],
    ?_⟩
  intro inputs
  have hinv := runFrom_preserves
    (fun st => ∀ (id : String) (r : GameThoughtData),
      r ∈ branchSeq st id → r ∈ st.thoughtHistory)
    (by
      intro s input hP
      cases hv : validateGameThoughtData input with
      | error msg =>
          rw [processGameThought_error_eq s input msg hv]
          exact hP
      | ok v0 =>
          intro id r hr
          rw [branchSeq_ok_step s input v0 id hv] at hr
          rw [processGameThought_ok_history s input v0 hv]
          split at hr
          · rcases List.mem_append.mp hr with hm | hm
            · exact List.mem_append_left _ (hP id r hm)
            · exact List.mem_append_right _ hm
          · exact List.mem_append_left _ (hP id r hr))
    inputs initialState (by intro id r hr; cases hr)
  exact hinv

/-- Witness for C3 at Scenario C's payload on a fresh tracker:
`branchFromThought` 1 and `branchId` "controls-alt" are truthy and
collide with nothing, so the branch sequence "controls-alt" receives the
record. -/
theorem branch_membership_truthy_witness :
    branchSeq (processGameThought initialState inputC).1 "controls-alt" =
      (if (jsTruthy (normalizeRecord (validatedRecord fsC)).branchFromThought &&
           jsTruthy (normalizeRecord (validatedRecord fsC)).branchId) = true ∧
          jsToKeyString (normalizeRecord (validatedRecord fsC)).branchId =
            "controls-alt" ∧
          protoCollision initialState.branches
            (normalizeRecord (validatedRecord fsC)) = false then
         branchSeq initialState "controls-alt" ++
           [normalizeRecord (validatedRecord fsC)]
       else branchSeq initialState "controls-alt") :=
  branch_membership_truthy.1 initialState inputC (validatedRecord fsC)
    "controls-alt" rfl

/-- C10: in every reachable tracker state, every key of BranchIndex maps
to a non-empty record sequence — a branch entry is created only by the
call that appends its first record. -/
theorem branches_nonempty (inputs : List JSVal)
    (p : String × List GameThoughtData)
    (hp : p ∈ (runCalls inputs).branches) : p.2 ≠ [] := by
  have hinv := runFrom_preserves (fun st => ∀ q ∈ st.branches, q.2 ≠ [])
    (by
      intro s input hP
      cases hv : validateGameThoughtData input with
      | error msg =>
          rw [processGameThought_error_eq s input msg hv]
          exact hP
      | ok v0 =>
          intro q hq
          rcases processGameThought_ok_branches s input v0 hv with heq | heq
          · rw [heq] at hq
            exact hP q hq
          · rw [heq] at hq
            exact pushBranch_preserves_nonempty s.branches _ _ hP q hq)
    inputs initialState (by intro q hq; cases hq)
  exact hinv p hp

/-- Witness for C10: after Scenario C's call the branch entry
"controls-alt" holds one record, which is indeed non-empty. -/
theorem branches_nonempty_witness :
    ("controls-alt", [validatedRecord fsC]).2 ≠
      ([] : List GameThoughtData) := by
  apply branches_nonempty [inputC]
  have h : (runCalls [inputC]).branches =
      [("controls-alt", [validatedRecord fsC])] := rfl
  rw [h]
  exact List.mem_singleton_self _
